import Mathlib

/-
Verification of the bartender hardware-control core (src/hardware.py and
src/config.py) via a shallow embedding.

Modelling conventions:
* Python floats are modelled as rationals; all constants involved are exact.
* The mutable object state (reservoir_levels, refilling, refill_locks, and
  the commanded relay state of pumps and valves) is an explicit `HWState`
  record threaded through the operations.
* Real-time behaviour is abstracted: `pour`'s timed wait and
  `refill_reservoir`'s polling loop are nondeterministic in how they end.
  The loop end (float switch, elapsed-time timeout, or a raised fault) and
  the number of completed simulated fill iterations are explicit parameters;
  `pour` takes a flag saying whether a fault is raised during `time.sleep`.
  A raised fault models any exception thrown at the operation's suspension
  point (e.g. an interrupt delivered during the sleep).
* A raise of `ValueError` and a propagating fault are modelled by the
  `PyOutcome` type; state mutations performed before the raise persist.
-/

namespace Bartender

/- Constants from src/config.py (keys and pin numbers of the GPIO dicts,
calibration values, and safety limits). -/

def PUMP_PINS : List (Nat × Nat) := [(1, 17), (2, 27), (3, 22), (4, 23)]

def VALVE_PINS : List (Nat × Nat) := [(1, 24), (2, 25), (3, 5), (4, 6)]

def FLOAT_PINS : List (Nat × Nat) := [(1, 16), (2, 20), (3, 21), (4, 26)]

def ML_PER_SECOND : List (Nat × ℚ) := [(1, 8), (2, 8), (3, 8), (4, 8)]

def RESERVOIR_CAPACITY_ML : ℚ := 400

def REFILL_THRESHOLD_ML : ℚ := 100

def PUMP_FLOW_RATE : ℚ := 220

def MAX_POUR_TIME : ℚ := 30

def MAX_PUMP_TIME : ℚ := 180

def REFILL_TIMEOUT : ℚ := 120

/-- Keys of a Python dict modelled as an association list. -/
def dictKeys {α : Type} (d : List (Nat × α)) : List Nat := d.map Prod.fst

/-- Subscript access `d[k]` on a dict of rationals. The call sites below
only access keys whose presence was checked, so the default is never
reached there. -/
def dictGet (d : List (Nat × ℚ)) (k : Nat) : ℚ := (d.lookup k).getD 0

/-- Pointwise update of a Bool-valued map (a Python dict written at one key). -/
def updB (f : Nat → Bool) (n : Nat) (b : Bool) : Nat → Bool :=
  fun m => if m = n then b else f m

/-- Pointwise update of a ℚ-valued map (a Python dict written at one key). -/
def updQ (f : Nat → ℚ) (n : Nat) (q : ℚ) : Nat → ℚ :=
  fun m => if m = n then q else f m

/-- Mutable state of a `BartenderHardware` object: estimated reservoir
levels, refilling flags, per-reservoir locks (held or free), and the
commanded relay state of the pump and valve GPIO outputs (only driven in
live mode; in simulation mode the device methods just log). -/
structure HWState where
  simulation_mode : Bool
  reservoir_levels : Nat → ℚ
  refilling : Nat → Bool
  lock_held : Nat → Bool
  valve_on : Nat → Bool
  pump_on : Nat → Bool

/-- State right after `__init__`: levels at capacity, no refilling, all
locks free, every relay initialized OFF (`initial_value=False`). -/
def initState (sim : Bool) : HWState :=
  { simulation_mode := sim
    reservoir_levels := fun _ => RESERVOIR_CAPACITY_ML
    refilling := fun _ => false
    lock_held := fun _ => false
    valve_on := fun _ => false
    pump_on := fun _ => false }

/-- Observable side effects of an operation, in order of occurrence. -/
inductive Event where
  | valveOpened (n : Nat)
  | valveClosed (n : Nat)
  | pumpActivated (n : Nat)
  | pumpDeactivated (n : Nat)
  | slept (seconds : ℚ)
  | warnedPourClamp (computed : ℚ)
deriving DecidableEq

/-- How a Python call ends: a normal return with a value, a raised
`ValueError` (invalid id), or a propagating fault injected at a
suspension point. -/
inductive PyOutcome (α : Type) where
  | ret (v : α)
  | valueError
  | faultRaised
deriving DecidableEq

/-- Method `activate_pump` (its invalid-id guard cannot fire at the call
site inside `refill_reservoir`, which has already validated the id): in
simulation mode only a log line, in live mode the relay is driven ON. -/
def activate_pump (s : HWState) (pump_num : Nat) : HWState :=
  if s.simulation_mode then s
  else { s with pump_on := updB s.pump_on pump_num true }

/-- Method `deactivate_pump` (guard as in `activate_pump`): relay OFF in
live mode. -/
def deactivate_pump (s : HWState) (pump_num : Nat) : HWState :=
  if s.simulation_mode then s
  else { s with pump_on := updB s.pump_on pump_num false }

/-- Method `open_valve` (guard as in `activate_pump`): relay ON in live
mode. -/
def open_valve (s : HWState) (valve_num : Nat) : HWState :=
  if s.simulation_mode then s
  else { s with valve_on := updB s.valve_on valve_num true }

/-- Method `close_valve` (guard as in `activate_pump`): relay OFF in live
mode. -/
def close_valve (s : HWState) (valve_num : Nat) : HWState :=
  if s.simulation_mode then s
  else { s with valve_on := updB s.valve_on valve_num false }

/-- Result of a `pour` call: the final object state, the call outcome
(Python's `pour` returns `None` on every normal path, hence the returned
value is an always-`none` option), and the emitted side effects. -/
structure PourResult where
  state : HWState
  outcome : PyOutcome (Option ℚ)
  events : List Event

/-- Method `pour(valve_num, ml)` of src/hardware.py. Control flow follows
the source line by line: the `ml <= 0` early return, the membership check
against `config.VALVE_PINS`, the pour-time computation with the
`MAX_POUR_TIME` clamp and its warning log, valve open, the timed sleep
(where `faultDuringSleep` injects an exception, which propagates — the
source has no handler, so `close_valve` and the level update are skipped),
valve close, and the level decrement clamped at 0. -/
def pour (s : HWState) (valve_num : Nat) (ml : ℚ) (faultDuringSleep : Bool) :
    PourResult :=
  if ml ≤ 0 then
    { state := s, outcome := .ret none, events := [] }
  else if valve_num ∉ dictKeys VALVE_PINS then
    { state := s, outcome := .valueError, events := [] }
  else
    let flow_rate := dictGet ML_PER_SECOND valve_num
    let rawTime := ml / flow_rate
    let pour_time := if rawTime > MAX_POUR_TIME then MAX_POUR_TIME else rawTime
    let warnEvents :=
      if rawTime > MAX_POUR_TIME then [Event.warnedPourClamp rawTime] else []
    let s1 := open_valve s valve_num
    if faultDuringSleep then
      { state := s1
        outcome := .faultRaised
        events := warnEvents ++ [Event.valveOpened valve_num] }
    else
      let s2 := close_valve s1 valve_num
      let lvl := s2.reservoir_levels valve_num - ml
      let lvl2 := if lvl < 0 then 0 else lvl
      { state :=
          { s2 with reservoir_levels := updQ s2.reservoir_levels valve_num lvl2 }
        outcome := .ret none
        events := warnEvents ++
          [Event.valveOpened valve_num, Event.slept pour_time,
           Event.valveClosed valve_num] }

/-- How `refill_reservoir`'s monitoring loop ends: float switch reports
full, the elapsed-time timeout fires, or an exception is raised inside the
loop (the code's `except Exception` catches it and falls through to the
`finally` block, skipping `deactivate_pump` and the level reset). -/
inductive RefillExit where
  | floatFull
  | timedOut
  | fault
deriving DecidableEq

/-- Result of a `refill_reservoir` call: final state, outcome (the
function returns `None`; an injected loop fault is caught, so it still
returns normally), whether the non-blocking lock acquisition succeeded,
the timeout value computed for the monitoring loop (`none` when the body
was never entered), and the emitted side effects. -/
structure RefillResult where
  state : HWState
  outcome : PyOutcome Unit
  acquiredLock : Bool
  timeoutUsed : Option ℚ
  events : List Event

/-- One iteration of the simulated-fill step inside the monitoring loop:
executed only in simulation mode and only when `ml_needed > 0` (both taken
from the values at loop entry), it raises the level by
`(PUMP_FLOW_RATE / 60) * 0.5` ml, capped at capacity. -/
def simFillStep (ml_needed : ℚ) (sim : Bool) (level : ℚ) : ℚ :=
  if sim ∧ ml_needed > 0 then
    min (level + (PUMP_FLOW_RATE / 60) * 0.5) RESERVOIR_CAPACITY_ML
  else level

/-- Method `refill_reservoir(reservoir_num)` of src/hardware.py. Control
flow follows the source: membership check against `config.PUMP_PINS`
(raises `ValueError`), non-blocking lock acquisition (on failure, log and
return), then inside `try`: set `refilling`, compute `ml_needed`,
`expected_time` and the clamped `timeout`, activate the pump, run the
monitoring loop (`loopFills` completed simulated fill iterations, then the
given loop end), and — only when no fault was raised — deactivate the pump
and reset the level to capacity. The `except` swallows a loop fault; the
`finally` always clears `refilling` and releases the lock. -/
def refill_reservoir (s : HWState) (reservoir_num : Nat) (exitKind : RefillExit)
    (loopFills : Nat) : RefillResult :=
  if reservoir_num ∉ dictKeys PUMP_PINS then
    { state := s, outcome := .valueError, acquiredLock := false,
      timeoutUsed := none, events := [] }
  else if s.lock_held reservoir_num then
    { state := s, outcome := .ret (), acquiredLock := false,
      timeoutUsed := none, events := [] }
  else
    let s1 := { s with lock_held := updB s.lock_held reservoir_num true,
                       refilling := updB s.refilling reservoir_num true }
    let ml_needed := RESERVOIR_CAPACITY_ML - s1.reservoir_levels reservoir_num
    let expected_time := (ml_needed / PUMP_FLOW_RATE) * 60
    let timeout := min (expected_time * 1.5) REFILL_TIMEOUT
    let s2 := activate_pump s1 reservoir_num
    let loopLevel :=
      (simFillStep ml_needed s2.simulation_mode)^[loopFills]
        (s2.reservoir_levels reservoir_num)
    let s3 :=
      { s2 with reservoir_levels := updQ s2.reservoir_levels reservoir_num loopLevel }
    let runFinally := fun (st : HWState) =>
      { st with refilling := updB st.refilling reservoir_num false,
                lock_held := updB st.lock_held reservoir_num false }
    if exitKind = RefillExit.fault then
      { state := runFinally s3, outcome := .ret (), acquiredLock := true,
        timeoutUsed := some timeout,
        events := [Event.pumpActivated reservoir_num] }
    else
      let s4 := deactivate_pump s3 reservoir_num
      let s5 :=
        { s4 with reservoir_levels := updQ s4.reservoir_levels reservoir_num RESERVOIR_CAPACITY_ML }
      { state := runFinally s5, outcome := .ret (), acquiredLock := true,
        timeoutUsed := some timeout,
        events := [Event.pumpActivated reservoir_num,
                   Event.pumpDeactivated reservoir_num] }

/-- Bounds invariant of C9: every estimated level lies in
`[0, RESERVOIR_CAPACITY_ML]`. -/
def LevelInv (s : HWState) : Prop :=
  ∀ r, 0 ≤ s.reservoir_levels r ∧ s.reservoir_levels r ≤ RESERVOIR_CAPACITY_ML

/-- Concrete state used by witnesses: reservoir 1's lock is held. -/
def lockedState : HWState :=
  { initState true with lock_held := updB (fun _ => false) 1 true }

/-- Concrete state used by witnesses: reservoir 1 drained to 100 ml. -/
def drainedState : HWState :=
  { initState true with reservoir_levels := updQ (fun _ => RESERVOIR_CAPACITY_ML) 1 100 }

/-- The keys of `config.PUMP_PINS` are exactly the ids 1..4. -/
theorem mem_pumpKeys (r : Nat) : r ∈ dictKeys PUMP_PINS ↔ 1 ≤ r ∧ r ≤ 4 := by
  have h : dictKeys PUMP_PINS = [1, 2, 3, 4] := rfl
  rw [h]
  simp only [List.mem_cons, List.not_mem_nil, or_false]
  omega

/-- The keys of `config.VALVE_PINS` are exactly the ids 1..4. -/
theorem mem_valveKeys (r : Nat) : r ∈ dictKeys VALVE_PINS ↔ 1 ≤ r ∧ r ≤ 4 := by
  have h : dictKeys VALVE_PINS = [1, 2, 3, 4] := rfl
  rw [h]
  simp only [List.mem_cons, List.not_mem_nil, or_false]
  omega

theorem updB_self (f : Nat → Bool) (n : Nat) (b : Bool) : updB f n b n = b := by
  simp [updB]

theorem updQ_self (f : Nat → ℚ) (n : Nat) (q : ℚ) : updQ f n q n = q := by
  simp [updQ]

theorem open_valve_levels (s : HWState) (n : Nat) :
    (open_valve s n).reservoir_levels = s.reservoir_levels := by
  unfold open_valve; split <;> rfl

theorem close_valve_levels (s : HWState) (n : Nat) :
    (close_valve s n).reservoir_levels = s.reservoir_levels := by
  unfold close_valve; split <;> rfl

theorem activate_pump_levels (s : HWState) (n : Nat) :
    (activate_pump s n).reservoir_levels = s.reservoir_levels := by
  unfold activate_pump; split <;> rfl

theorem activate_pump_sim (s : HWState) (n : Nat) :
    (activate_pump s n).simulation_mode = s.simulation_mode := by
  unfold activate_pump; split <;> rfl

theorem activate_pump_refilling (s : HWState) (n : Nat) :
    (activate_pump s n).refilling = s.refilling := by
  unfold activate_pump; split <;> rfl

theorem activate_pump_lock (s : HWState) (n : Nat) :
    (activate_pump s n).lock_held = s.lock_held := by
  unfold activate_pump; split <;> rfl

theorem deactivate_pump_levels (s : HWState) (n : Nat) :
    (deactivate_pump s n).reservoir_levels = s.reservoir_levels := by
  unfold deactivate_pump; split <;> rfl

theorem deactivate_pump_refilling (s : HWState) (n : Nat) :
    (deactivate_pump s n).refilling = s.refilling := by
  unfold deactivate_pump; split <;> rfl

theorem deactivate_pump_lock (s : HWState) (n : Nat) :
    (deactivate_pump s n).lock_held = s.lock_held := by
  unfold deactivate_pump; split <;> rfl

theorem deactivate_pump_self (s : HWState) (n : Nat) (h : s.simulation_mode = false) :
    (deactivate_pump s n).pump_on n = false := by
  unfold deactivate_pump
  rw [h]
  simp [updB]

/-- The clamp written as the source writes it equals `min`. -/
theorem ite_gt_eq_min (q M : ℚ) : (if q > M then M else q) = min q M := by
  rcases le_or_lt q M with h | h
  · rw [if_neg (not_lt.mpr h), min_eq_left h]
  · rw [if_pos h, min_eq_right h.le]

/-- One simulated fill step keeps the level inside `[0, capacity]`. -/
theorem simFillStep_bounds (ml : ℚ) (b : Bool) (x : ℚ)
    (h0 : 0 ≤ x) (h1 : x ≤ RESERVOIR_CAPACITY_ML) :
    0 ≤ simFillStep ml b x ∧ simFillStep ml b x ≤ RESERVOIR_CAPACITY_ML := by
  unfold simFillStep
  split
  · refine ⟨le_min (by norm_num [PUMP_FLOW_RATE]; linarith) ?_, min_le_right _ _⟩
    norm_num [RESERVOIR_CAPACITY_ML]
  · exact ⟨h0, h1⟩

/-- Any number of simulated fill steps keeps the level inside
`[0, capacity]`. -/
theorem iterate_simFillStep_bounds (ml : ℚ) (b : Bool) (k : Nat) (x : ℚ)
    (h0 : 0 ≤ x) (h1 : x ≤ RESERVOIR_CAPACITY_ML) :
    0 ≤ (simFillStep ml b)^[k] x ∧
      (simFillStep ml b)^[k] x ≤ RESERVOIR_CAPACITY_ML := by
  induction k generalizing x with
  | zero => simpa using ⟨h0, h1⟩
  | succ n ih =>
    rw [Function.iterate_succ_apply]
    exact ih _ (simFillStep_bounds ml b x h0 h1).1 (simFillStep_bounds ml b x h0 h1).2

/-- C1: the claim says every exit path of `pour`/`refill_reservoir` on a
valid reservoir de-energizes the actuated relay before returning, even on a
fault raised during the operation. The code does not: in live mode, a fault
raised during `pour`'s `time.sleep` propagates with no handler, skipping
`close_valve` (the valve relay stays ON), and a fault raised inside
`refill_reservoir`'s monitoring loop is caught by `except` but
`deactivate_pump` sits inside the `try`, not the `finally`, so it is
skipped (the pump relay stays ON). This theorem evaluates both operations
at the failing inputs. -/
theorem C1_fault_leaves_relay_energized :
    (pour (initState false) 1 50 true).state.valve_on 1 = true ∧
    (refill_reservoir (initState false) 1 RefillExit.fault 0).state.pump_on 1 = true := by
  constructor <;> decide

/-- C2 counterexample: the claim says `pour(reservoirId, volumeMl)` fails
with an invalid-id error for every `reservoirId` outside `[1,4]` and every
`volumeMl`. At `reservoirId = 5`, `volumeMl = 0` the `ml <= 0` early
return runs before the id check, so the call is a silent no-op, not a
`ValueError`. -/
theorem C2_counterexample :
    (pour (initState true) 5 0 false).outcome = PyOutcome.ret none ∧
    PyOutcome.ret (none : Option ℚ) ≠ PyOutcome.valueError := by
  constructor <;> decide

/-- C2 (amended): for every `reservoirId` outside `[1,4]`, `pour` fails
with `ValueError` for every `volumeMl > 0` (for `volumeMl <= 0` the volume
check precedes the id check and the call is a silent no-op), and
`refill_reservoir` always fails with `ValueError`; in all cases the device
state is unchanged and nothing is actuated. -/
theorem C2_invalid_id_rejected (s : HWState) (r : Nat) (v : ℚ) (f : Bool)
    (e : RefillExit) (k : Nat) (hr : ¬(1 ≤ r ∧ r ≤ 4)) :
    (0 < v →
      pour s r v f = { state := s, outcome := PyOutcome.valueError, events := [] }) ∧
    (v ≤ 0 →
      pour s r v f = { state := s, outcome := PyOutcome.ret none, events := [] }) ∧
    refill_reservoir s r e k =
      { state := s, outcome := PyOutcome.valueError, acquiredLock := false,
        timeoutUsed := none, events := [] } := by
  have hv : r ∉ dictKeys VALVE_PINS := fun hmem => hr ((mem_valveKeys r).mp hmem)
  have hp : r ∉ dictKeys PUMP_PINS := fun hmem => hr ((mem_pumpKeys r).mp hmem)
  refine ⟨fun h0 => ?_, fun h0 => ?_, ?_⟩
  · simp [pour, not_le.mpr h0, hv]
  · simp [pour, h0]
  · simp [refill_reservoir, hp]

/-- C2 witness at `reservoirId = 5`, `volumeMl = 7`. -/
theorem C2_invalid_id_rejected_witness :
    (0 < (7 : ℚ) →
      pour (initState true) 5 7 false =
        { state := initState true, outcome := PyOutcome.valueError, events := [] }) ∧
    ((7 : ℚ) ≤ 0 →
      pour (initState true) 5 7 false =
        { state := initState true, outcome := PyOutcome.ret none, events := [] }) ∧
    refill_reservoir (initState true) 5 RefillExit.floatFull 0 =
      { state := initState true, outcome := PyOutcome.valueError, acquiredLock := false,
        timeoutUsed := none, events := [] } :=
  C2_invalid_id_rejected (initState true) 5 7 false RefillExit.floatFull 0 (by decide)

/-- C4: when the reservoir's lock is already held, `refill_reservoir`
returns immediately with no error and mutates nothing: the non-blocking
`acquire` fails, the method logs and returns, leaving the whole object
state (including `refilling` and the levels) untouched. -/
theorem C4_refill_busy_noop (s : HWState) (r : Nat) (e : RefillExit) (k : Nat)
    (hr : 1 ≤ r ∧ r ≤ 4) (hl : s.lock_held r = true) :
    refill_reservoir s r e k =
      { state := s, outcome := PyOutcome.ret (), acquiredLock := false,
        timeoutUsed := none, events := [] } := by
  have hm : r ∈ dictKeys PUMP_PINS := (mem_pumpKeys r).mpr hr
  simp [refill_reservoir, hm, hl]

/-- C4 witness at reservoir 1 of a state whose lock 1 is held. -/
theorem C4_refill_busy_noop_witness :
    refill_reservoir lockedState 1 RefillExit.timedOut 2 =
      { state := lockedState, outcome := PyOutcome.ret (), acquiredLock := false,
        timeoutUsed := none, events := [] } :=
  C4_refill_busy_noop lockedState 1 RefillExit.timedOut 2 (by decide) (by decide)

/-- Shared helper: when the id is a valid key and the lock is free,
`refill_reservoir` runs its body and, on every loop end (float switch,
timeout, or a caught fault), the `finally` block leaves `refilling` false
and the lock free; the call acquired the lock and returns normally. -/
theorem refill_run_basics (s : HWState) (r : Nat) (e : RefillExit) (k : Nat)
    (hm : r ∈ dictKeys PUMP_PINS) (hl : s.lock_held r = false) :
    (refill_reservoir s r e k).acquiredLock = true ∧
    (refill_reservoir s r e k).outcome = PyOutcome.ret () ∧
    (refill_reservoir s r e k).state.refilling r = false ∧
    (refill_reservoir s r e k).state.lock_held r = false := by
  cases e <;>
    simp [refill_reservoir, hm, hl, updB_self, activate_pump_refilling,
      activate_pump_lock, deactivate_pump_refilling, deactivate_pump_lock]

/-- C3: after `refill_reservoir(r)` on a valid id with a free lock returns
— via the float switch, the timeout, or a fault raised in the monitoring
loop — `refilling[r]` is false and the lock is free again, and a
subsequent `refill_reservoir(r)` acquires the lock and proceeds. -/
theorem C3_refill_releases (s : HWState) (r : Nat) (e e2 : RefillExit) (k k2 : Nat)
    (hr : 1 ≤ r ∧ r ≤ 4) (hl : s.lock_held r = false) :
    (refill_reservoir s r e k).state.refilling r = false ∧
    (refill_reservoir s r e k).state.lock_held r = false ∧
    (refill_reservoir (refill_reservoir s r e k).state r e2 k2).acquiredLock = true := by
  have hm : r ∈ dictKeys PUMP_PINS := (mem_pumpKeys r).mpr hr
  obtain ⟨-, -, hrf, hlk⟩ := refill_run_basics s r e k hm hl
  exact ⟨hrf, hlk, (refill_run_basics _ r e2 k2 hm hlk).1⟩

/-- C3 witness: reservoir 1 of the fresh state, first refill ends in a
fault, second attempt still acquires the lock. -/
theorem C3_refill_releases_witness :
    (refill_reservoir (initState false) 1 RefillExit.fault 0).state.refilling 1 = false ∧
    (refill_reservoir (initState false) 1 RefillExit.fault 0).state.lock_held 1 = false ∧
    (refill_reservoir (refill_reservoir (initState false) 1 RefillExit.fault 0).state 1
        RefillExit.floatFull 0).acquiredLock = true :=
  C3_refill_releases (initState false) 1 RefillExit.fault RefillExit.floatFull 0 0
    (by decide) (by decide)

/-- C5: on a valid reservoir, a fault-free `pour(r, v)` with
`0 < v <= level` leaves `level - v`; with `v > level >= 0` it leaves
exactly 0, never a negative value. -/
theorem C5_pour_level_arithmetic (s : HWState) (r : Nat) (v : ℚ) (hr : 1 ≤ r ∧ r ≤ 4) :
    (0 < v → v ≤ s.reservoir_levels r →
      (pour s r v false).state.reservoir_levels r = s.reservoir_levels r - v) ∧
    (0 ≤ s.reservoir_levels r → s.reservoir_levels r < v →
      (pour s r v false).state.reservoir_levels r = 0) := by
  have hm : r ∈ dictKeys VALVE_PINS := (mem_valveKeys r).mpr hr
  constructor
  · intro h0 hle
    simp only [pour, not_le.mpr h0, if_false, hm, not_true_eq_false,
      Bool.false_eq_true, close_valve_levels, open_valve_levels]
    rw [updQ_self, if_neg (by linarith)]
  · intro h0 hlt
    have hv0 : 0 < v := lt_of_le_of_lt h0 hlt
    simp only [pour, not_le.mpr hv0, if_false, hm, not_true_eq_false,
      Bool.false_eq_true, close_valve_levels, open_valve_levels]
    rw [updQ_self, if_pos (by linarith)]

/-- C5 witness: pour 50 ml from the full reservoir 1 leaves 350 ml. -/
theorem C5_pour_level_arithmetic_witness :
    (0 < (50 : ℚ) → (50 : ℚ) ≤ (initState true).reservoir_levels 1 →
      (pour (initState true) 1 50 false).state.reservoir_levels 1 =
        (initState true).reservoir_levels 1 - 50) ∧
    (0 ≤ (initState true).reservoir_levels 1 → (initState true).reservoir_levels 1 < 50 →
      (pour (initState true) 1 50 false).state.reservoir_levels 1 = 0) :=
  C5_pour_level_arithmetic (initState true) 1 50 (by decide)

/-- C6: a fault-free `pour(r, v)` with `v > 0` on a valid reservoir
actuates the valve for `min(v / flowRate[r], MAX_POUR_TIME)` seconds,
returns normally (no error) whether or not the clamp fired, and emits the
clamp warning log exactly when `v / flowRate[r] > MAX_POUR_TIME`. -/
theorem C6_pour_duration_clamped (s : HWState) (r : Nat) (v : ℚ)
    (hr : 1 ≤ r ∧ r ≤ 4) (hv : 0 < v) :
    (pour s r v false).outcome = PyOutcome.ret none ∧
    (pour s r v false).events =
      (if v / dictGet ML_PER_SECOND r > MAX_POUR_TIME
        then [Event.warnedPourClamp (v / dictGet ML_PER_SECOND r)] else []) ++
      [Event.valveOpened r,
       Event.slept (min (v / dictGet ML_PER_SECOND r) MAX_POUR_TIME),
       Event.valveClosed r] := by
  have hm : r ∈ dictKeys VALVE_PINS := (mem_valveKeys r).mpr hr
  constructor
  · simp [pour, not_le.mpr hv, hm]
  · simp [pour, not_le.mpr hv, hm, ite_gt_eq_min]

/-- C6 witness: a 400 ml pour at 8 ml/s computes 50 s, clamps to 30 s,
warns, and still returns normally. -/
theorem C6_pour_duration_clamped_witness :
    (pour (initState true) 1 400 false).outcome = PyOutcome.ret none ∧
    (pour (initState true) 1 400 false).events =
      (if (400 : ℚ) / dictGet ML_PER_SECOND 1 > MAX_POUR_TIME
        then [Event.warnedPourClamp ((400 : ℚ) / dictGet ML_PER_SECOND 1)] else []) ++
      [Event.valveOpened 1,
       Event.slept (min ((400 : ℚ) / dictGet ML_PER_SECOND 1) MAX_POUR_TIME),
       Event.valveClosed 1] :=
  C6_pour_duration_clamped (initState true) 1 400 (by decide) (by decide)

/-- C7: when `refill_reservoir` acquires the lock it uses the timeout
`min(expected_time * 1.5, REFILL_TIMEOUT)` where
`expected_time = ml_needed / pumpRate` and `pumpRate` is the pump flow
rate per second (`PUMP_FLOW_RATE / 60`; the config value is per minute,
the code converts with `* 60`). -/
theorem C7_refill_timeout_value (s : HWState) (r : Nat) (e : RefillExit) (k : Nat)
    (hr : 1 ≤ r ∧ r ≤ 4) (hl : s.lock_held r = false) :
    (refill_reservoir s r e k).acquiredLock = true ∧
    (refill_reservoir s r e k).timeoutUsed =
      some (min
        (((RESERVOIR_CAPACITY_ML - s.reservoir_levels r) / (PUMP_FLOW_RATE / 60)) * 1.5)
        REFILL_TIMEOUT) := by
  have hm : r ∈ dictKeys PUMP_PINS := (mem_pumpKeys r).mpr hr
  have harith :
      (RESERVOIR_CAPACITY_ML - s.reservoir_levels r) / PUMP_FLOW_RATE * 60 * 1.5 =
        (RESERVOIR_CAPACITY_ML - s.reservoir_levels r) / (PUMP_FLOW_RATE / 60) * 1.5 := by
    norm_num [PUMP_FLOW_RATE]
    ring
  cases e <;> simp [refill_reservoir, hm, hl, harith]

/-- C7 witness at the drained state (300 ml needed): the clamp to the
120 s ceiling applies. -/
theorem C7_refill_timeout_value_witness :
    (refill_reservoir drainedState 1 RefillExit.floatFull 0).acquiredLock = true ∧
    (refill_reservoir drainedState 1 RefillExit.floatFull 0).timeoutUsed =
      some (min
        (((RESERVOIR_CAPACITY_ML - drainedState.reservoir_levels 1) / (PUMP_FLOW_RATE / 60)) * 1.5)
        REFILL_TIMEOUT) :=
  C7_refill_timeout_value drainedState 1 RefillExit.floatFull 0 (by decide) (by decide)

/-- C8: a refill on a valid reservoir (live mode, free lock) whose
monitoring loop ends by timeout still deactivates the pump, emits the
activate/deactivate pair, and sets the level to full capacity — the same
final level as the float-switch success path. -/
theorem C8_timeout_like_success (s : HWState) (r : Nat) (k k2 : Nat)
    (hr : 1 ≤ r ∧ r ≤ 4) (hl : s.lock_held r = false)
    (hsim : s.simulation_mode = false) :
    (refill_reservoir s r RefillExit.timedOut k).state.pump_on r = false ∧
    (refill_reservoir s r RefillExit.timedOut k).state.reservoir_levels r =
      RESERVOIR_CAPACITY_ML ∧
    (refill_reservoir s r RefillExit.timedOut k).state.reservoir_levels r =
      (refill_reservoir s r RefillExit.floatFull k2).state.reservoir_levels r ∧
    (refill_reservoir s r RefillExit.timedOut k).events =
      [Event.pumpActivated r, Event.pumpDeactivated r] := by
  have hm : r ∈ dictKeys PUMP_PINS := (mem_pumpKeys r).mpr hr
  refine ⟨?_, ?_, ?_, ?_⟩ <;>
    simp [refill_reservoir, hm, hl, activate_pump, deactivate_pump, hsim, updB, updQ]

/-- C8 witness: reservoir 1 of the fresh live-mode state. -/
theorem C8_timeout_like_success_witness :
    (refill_reservoir (initState false) 1 RefillExit.timedOut 0).state.pump_on 1 = false ∧
    (refill_reservoir (initState false) 1 RefillExit.timedOut 0).state.reservoir_levels 1 =
      RESERVOIR_CAPACITY_ML ∧
    (refill_reservoir (initState false) 1 RefillExit.timedOut 0).state.reservoir_levels 1 =
      (refill_reservoir (initState false) 1 RefillExit.floatFull 0).state.reservoir_levels 1 ∧
    (refill_reservoir (initState false) 1 RefillExit.timedOut 0).events =
      [Event.pumpActivated 1, Event.pumpDeactivated 1] :=
  C8_timeout_like_success (initState false) 1 0 0 (by decide) (by decide) (by decide)

/-- C10 counterexample: the claim says a `volumeMl <= 0` pour returns the
current level. The Python method executes a bare `return` (value `None`):
at reservoir 1, volume 0, the current level is 400 but the returned value
is `None`, not that level. -/
theorem C10_counterexample :
    (initState true).reservoir_levels 1 = 400 ∧
    (pour (initState true) 1 0 false).outcome = PyOutcome.ret none ∧
    PyOutcome.ret (none : Option ℚ) ≠ PyOutcome.ret (some (400 : ℚ)) :=
  ⟨rfl, by decide, by decide⟩

/-- C10 (amended): for every `reservoirId` (even an invalid one — the
volume check comes first) and every `volumeMl <= 0`, `pour` is a complete
no-op: state unchanged, nothing actuated, no error; the call returns
`None` (no value) rather than the current level, which stays observable
through the unchanged `reservoir_levels`. -/
theorem C10_nonpositive_pour_noop (s : HWState) (r : Nat) (v : ℚ) (f : Bool)
    (hv : v ≤ 0) :
    pour s r v f = { state := s, outcome := PyOutcome.ret none, events := [] } := by
  simp [pour, hv]

/-- C10 witness at reservoir 1, volume 0. -/
theorem C10_nonpositive_pour_noop_witness :
    pour (initState true) 1 0 false =
      { state := initState true, outcome := PyOutcome.ret none, events := [] } :=
  C10_nonpositive_pour_noop (initState true) 1 0 false (by decide)

/-- Shared helper: `pour` keeps every estimated level inside
`[0, capacity]`, on every path (no-op, invalid id, fault during the sleep,
or the normal clamped decrement). -/
theorem pour_LevelInv (s : HWState) (n : Nat) (v : ℚ) (f : Bool) (hs : LevelInv s) :
    LevelInv (pour s n v f).state := by
  intro r
  by_cases h0 : v ≤ 0
  · simpa [pour, h0] using hs r
  · by_cases hm : n ∈ dictKeys VALVE_PINS
    · cases f
      · simp only [pour, h0, if_false, hm, not_true_eq_false, Bool.false_eq_true,
          close_valve_levels, open_valve_levels]
        rcases eq_or_ne r n with hrn | hrn
        · subst hrn
          rw [updQ_self]
          split
          · exact ⟨le_refl 0, by norm_num [RESERVOIR_CAPACITY_ML]⟩
          · have hv : 0 < v := not_le.mp h0
            constructor
            · linarith
            · have := (hs r).2
              linarith
        · simpa [updQ, hrn] using hs r
      · simp only [pour, h0, if_false, hm, not_true_eq_false, if_true,
          open_valve_levels]
        exact hs r
    · simpa [pour, h0, hm] using hs r

/-- Shared helper: `refill_reservoir` keeps every estimated level inside
`[0, capacity]`, on every path — ValueError, busy no-op, fault during the
loop (the simulated fill steps clamp at capacity), or the final reset to
capacity. -/
theorem refill_LevelInv (s : HWState) (n : Nat) (e : RefillExit) (k : Nat)
    (hs : LevelInv s) :
    LevelInv (refill_reservoir s n e k).state := by
  intro r
  by_cases hm : n ∈ dictKeys PUMP_PINS
  · by_cases hl : s.lock_held n = true
    · simpa [refill_reservoir, hm, hl] using hs r
    · have hl2 : s.lock_held n = false := by simpa using hl
      rcases eq_or_ne r n with hrn | hrn
      · subst hrn
        rcases e with - | - | -
        rotate_right
        · simp [refill_reservoir, hm, hl2, activate_pump_levels, activate_pump_sim,
            updQ_self]
          exact iterate_simFillStep_bounds _ _ k _ (hs r).1 (hs r).2
        all_goals
          simp [refill_reservoir, hm, hl2, activate_pump_levels, activate_pump_sim,
            deactivate_pump_levels, updQ_self]
          try norm_num [RESERVOIR_CAPACITY_ML]
      · rcases e with - | - | -
        rotate_right
        · simpa [refill_reservoir, hm, hl2, activate_pump_levels, activate_pump_sim,
            updQ, hrn] using hs r
        all_goals
          simpa [refill_reservoir, hm, hl2, activate_pump_levels, activate_pump_sim,
            deactivate_pump_levels, updQ, hrn] using hs r
  · simpa [refill_reservoir, hm] using hs r

/-- C9: every estimated level stays inside `[0, RESERVOIR_CAPACITY_ML]`:
the initial state starts at capacity, `pour` clamps its decrement at 0,
`refill_reservoir`'s simulated fill steps clamp at capacity, and its
completion resets to exactly capacity. -/
theorem C9_levels_bounded (sim : Bool) (s : HWState) (hs : LevelInv s) (n : Nat)
    (v : ℚ) (f : Bool) (e : RefillExit) (k : Nat) :
    LevelInv (initState sim) ∧ LevelInv (pour s n v f).state ∧
      LevelInv (refill_reservoir s n e k).state :=
  ⟨fun _ => ⟨by norm_num [initState, RESERVOIR_CAPACITY_ML],
      by norm_num [initState, RESERVOIR_CAPACITY_ML]⟩,
   pour_LevelInv s n v f hs, refill_LevelInv s n e k hs⟩

/-- C9 witness: the fresh simulated state, a 50 ml pour, and a refill. -/
theorem C9_levels_bounded_witness :
    LevelInv (initState true) ∧ LevelInv (pour (initState true) 1 50 false).state ∧
      LevelInv (refill_reservoir (initState true) 1 RefillExit.floatFull 0).state :=
  C9_levels_bounded true (initState true)
    (fun _ => ⟨by norm_num [initState, RESERVOIR_CAPACITY_ML],
      by norm_num [initState, RESERVOIR_CAPACITY_ML]⟩)
    1 50 false RefillExit.floatFull 0

end Bartender
